import Mathlib

/-!
Verification of the grouping/merging tutorial notebook.

The notebook builds a dataframe from an inline `scoreboard` list of player
records, demonstrates `groupby` / `apply` / built-in aggregations on it, and
demonstrates `pd.concat` and `pd.merge` on small example frames.  We embed
the dataframes as lists of index/row pairs and the library operations as
functions on them, following the semantics the notebook itself documents in
its markdown cells, comments and recorded outputs.
-/

/-- A record of the `scoreboard` list: each entry has exactly the five
fields `player`, `best_score`, `last_score`, `country`, `level`. -/
structure Row where
  player : String
  best_score : Int
  last_score : Int
  country : String
  level : String
deriving Repr, DecidableEq

/-- Record 0 of `scoreboard`. -/
def row0 : Row :=
  { player := "kewld00d1", best_score := 100, last_score := 100, country := "gr", level := "n00b" }

/-- Record 1 of `scoreboard`. -/
def row1 : Row :=
  { player := "saphyre", best_score := 250, last_score := 120, country := "gr", level := "n00b" }

/-- Record 2 of `scoreboard`. -/
def row2 : Row :=
  { player := "chckn0rris", best_score := 300, last_score := 200, country := "gr", level := "expert" }

/-- Record 3 of `scoreboard`. -/
def row3 : Row :=
  { player := "pumpkin", best_score := 550, last_score := 20, country := "gr", level := "expert" }

/-- Record 4 of `scoreboard`. -/
def row4 : Row :=
  { player := "tr0llhuntah", best_score := 200, last_score := 150, country := "no", level := "n00b" }

/-- Record 5 of `scoreboard`. -/
def row5 : Row :=
  { player := "nynja", best_score := 100, last_score := 100, country := "no", level := "expert" }

/-- Record 6 of `scoreboard`. -/
def row6 : Row :=
  { player := "angel90210", best_score := 400, last_score := 200, country := "no", level := "expert" }

/-- Record 7 of `scoreboard`. -/
def row7 : Row :=
  { player := "111111", best_score := 50, last_score := 50, country := "no", level := "n00b" }

/-- The inline `scoreboard` data, transcribed record by record. -/
def scoreboard : List Row := [row0, row1, row2, row3, row4, row5, row6, row7]

/-- A dataframe is a list of rows together with their integer index.
`pd.DataFrame(scoreboard)` indexes the records positionally. -/
def df : List (Nat × Row) := scoreboard.enum

/-- Insert into a list kept ordered by the boolean comparison `le`. -/
def insertBy {α : Type} (le : α → α → Bool) (a : α) : List α → List α
  | [] => [a]
  | b :: bs => if le a b then a :: b :: bs else b :: insertBy le a bs

/-- Insertion sort by a boolean comparison, used to model the sorted group
keys that `groupby` produces. -/
def sortBy {α : Type} (le : α → α → Bool) : List α → List α
  | [] => []
  | a :: as => insertBy le a (sortBy le as)

/-- Lexicographic strict order on character lists. -/
def charListLt : List Char → List Char → Bool
  | [], [] => false
  | [], _ :: _ => true
  | _ :: _, [] => false
  | a :: as, b :: bs => a.toNat < b.toNat || (a == b && charListLt as bs)

/-- Boolean order on strings (equality or lexicographic less-than). -/
def strLe (a b : String) : Bool := a == b || charListLt a.data b.data

/-- Modelled from the spec: the external library's `DataFrameGroupBy` is not
part of this repository; per the notebook, `df.groupby(col)` is an iterable
of pairs of a key value and the sub-dataframe of the rows carrying that
value, keys sorted, rows kept in original order. -/
def groupby (key : Row → String) (d : List (Nat × Row)) : List (String × List (Nat × Row)) :=
  (sortBy strLe ((d.map (fun p => key p.2)).eraseDups)).map
    (fun k => (k, d.filter (fun p => key p.2 == k)))

/-- The notebook's `get_mean`: the arithmetic mean of the `best_score`
column of a dataframe. -/
def get_mean (d : List (Nat × Row)) : ℚ :=
  ((d.map (fun p => (p.2.best_score : ℚ))).sum) / (d.length : ℚ)

/-- Modelled from the spec: the external library's `.apply` on a groupby
object maps the supplied function over each group, keeping the group keys. -/
def applyGroups {α : Type} (f : List (Nat × Row) → α)
    (gs : List (String × List (Nat × Row))) : List (String × α) :=
  gs.map (fun kg => (kg.1, f kg.2))

/-- The sub-dataframe of rows 0-3 (the `gr` records with their indices). -/
def gr_rows : List (Nat × Row) := [(0, row0), (1, row1), (2, row2), (3, row3)]

/-- The sub-dataframe of rows 4-7 (the `no` records with their indices). -/
def no_rows : List (Nat × Row) := [(4, row4), (5, row5), (6, row6), (7, row7)]

/-- The notebook's `best_player` exercise stub: its body is `return df`,
so it returns its argument unchanged. -/
def best_player (d : List (Nat × Row)) : List (Nat × Row) := d

/-- The notebook's `level_mean` exercise stub: its body is only `pass`,
so it returns `None` (here `none`) on every input. -/
def level_mean (_ : List (Nat × Row)) : Option ℚ := none

/-- Mean of an integer column of a dataframe, modelling the built-in
column-wise aggregation `.mean()`. -/
def colMean (col : Row → Int) (d : List (Nat × Row)) : ℚ :=
  ((d.map (fun p => (col p.2 : ℚ))).sum) / (d.length : ℚ)

/-- Boolean order on string pairs, lexicographic. -/
def pairLe (a b : String × String) : Bool :=
  charListLt a.1.data b.1.data || (a.1 == b.1 && strLe a.2 b.2)

/-- Modelled from the spec: `df.groupby(['country', 'level'])`, the
multi-key grouping of the scoreboard dataframe; keys are pairs, sorted
lexicographically, each with the sub-dataframe of matching rows. -/
def groupbyPair (d : List (Nat × Row)) : List ((String × String) × List (Nat × Row)) :=
  (sortBy pairLe ((d.map (fun p => (p.2.country, p.2.level))).eraseDups)).map
    (fun k => (k, d.filter (fun p => p.2.country == k.1 && p.2.level == k.2)))

/-- The series `df.groupby(['country', 'level']).mean().best_score`:
per pair-group mean of the `best_score` column. -/
def pairMeans (d : List (Nat × Row)) : List ((String × String) × ℚ) :=
  (groupbyPair d).map (fun kg => (kg.1, get_mean kg.2))

/-- Within one country group, group by `level` and take the mean of
`best_score` (the nested grouping the `level_mean` exercise asks for). -/
def level_means (g : List (Nat × Row)) : List (String × ℚ) :=
  applyGroups get_mean (groupby Row.level g)

/-- The nested two-stage grouping: group by country, then within each
country group by level and take the mean of `best_score`. -/
def nestedMeans (d : List (Nat × Row)) : List (String × List (String × ℚ)) :=
  applyGroups level_means (groupby Row.country d)

/-- Modelled from the spec: `.reset_index(drop=True)` after an `apply`
returning dataframes flattens the groups in order and renumbers the rows
from 0, dropping the group index. -/
def resetIndexDrop (gs : List (String × List (Nat × Row))) : List (Nat × Row) :=
  ((gs.flatMap (fun kg => kg.2)).map (fun p => p.2)).enum

/-- A record of the `raw_tweets` list: each entry has exactly the four
fields `screenname`, `id_str`, `text`, `hashtags`. -/
structure Tweet where
  screenname : String
  id_str : String
  text : String
  hashtags : List String
deriving Repr, DecidableEq

/-- The inline `raw_tweets` data, transcribed record by record. -/
def raw_tweets : List Tweet :=
  [ { screenname := "wunderkid", id_str := "928374987",
      text := "Woah, pandas is so much fun #worldrocked #jawdrop #ml",
      hashtags := ["worldrocked", "jawdrop", "ml"] },
    { screenname := "pumpkin", id_str := "98214039",
      text := "I stay up all night dreaming of linear models #datascience #ml",
      hashtags := ["datascience", "ml"] } ]

/-- The `def` statements the notebook itself authors, in their order of
appearance in the source (`get_mean`, `best_player`, `level_mean`). -/
def userAuthoredDefs : List String := ["get_mean", "best_player", "level_mean"]

/-- The four join modes of `pd.merge` documented in the notebook. -/
inductive MergeHow where
  | inner
  | outer
  | left
  | right
deriving DecidableEq

/-- Matched rows of a merge on the first column: one output row per pair of
input rows sharing a key, carrying the key and both value columns. -/
def innerRows (d1 d2 : List (Int × Int)) : List (Int × Option Int × Option Int) :=
  d1.flatMap (fun p => (d2.filter (fun q => q.1 == p.1)).map (fun q => (p.1, some p.2, some q.2)))

/-- Rows of a left merge: every left row appears, matched where possible,
otherwise padded with a missing value in the right column. -/
def leftRows (d1 d2 : List (Int × Int)) : List (Int × Option Int × Option Int) :=
  d1.flatMap (fun p =>
    match d2.filter (fun q => q.1 == p.1) with
    | [] => [(p.1, some p.2, none)]
    | m :: ms => (m :: ms).map (fun q => (p.1, some p.2, some q.2)))

/-- Rows of a right merge: every right row appears, matched where possible,
otherwise padded with a missing value in the left column. -/
def rightRows (d1 d2 : List (Int × Int)) : List (Int × Option Int × Option Int) :=
  d2.flatMap (fun q =>
    match d1.filter (fun p => p.1 == q.1) with
    | [] => [(q.1, none, some q.2)]
    | m :: ms => (m :: ms).map (fun p => (q.1, some p.2, some q.2)))

/-- Rows of an outer merge: the left-merge rows followed by the unmatched
right rows padded with a missing value in the left column. -/
def outerRows (d1 d2 : List (Int × Int)) : List (Int × Option Int × Option Int) :=
  leftRows d1 d2 ++
    (d2.filter (fun q => !(d1.any (fun p => p.1 == q.1)))).map (fun q => (q.1, none, some q.2))

/-- Modelled from the spec: the external library's `pd.merge(d1, d2, how,
on='A')` keyed on the single column `A` (the first component); `how`
controls which unmatched keys survive, per the notebook's documentation
(inner: intersection, outer: union, left: keys from left, right: keys from
right). -/
def merge (how : MergeHow) (d1 d2 : List (Int × Int)) : List (Int × Option Int × Option Int) :=
  match how with
  | .inner => innerRows d1 d2
  | .outer => outerRows d1 d2
  | .left => leftRows d1 d2
  | .right => rightRows d1 d2

/-- The key column of an input dataframe of `merge`. -/
def colKeys (d : List (Int × Int)) : List Int := d.map (fun p => p.1)

/-- The key column of a merge result. -/
def outKeys (rs : List (Int × Option Int × Option Int)) : List Int := rs.map (fun r => r.1)

/-- The `df1` of the merge play cell: columns `A = [1,2,3]`, `B = [4,5,6]`. -/
def merge_df1 : List (Int × Int) := [(1, 4), (2, 5), (3, 6)]

/-- The `df2` of the merge play cell: columns `A = [4]`, `C = [7]`. -/
def merge_df2 : List (Int × Int) := [(4, 7)]

/-- Number of value columns of a concat operand (width of its first row). -/
def dfWidth (d : List (Nat × List Int)) : Nat :=
  match d with
  | [] => 0
  | p :: _ => p.2.length

/-- The cells of the row at a given index label, when present. -/
def rowAt (d : List (Nat × List Int)) (i : Nat) : Option (List Int) :=
  (d.find? (fun p => p.1 == i)).map (fun p => p.2)

/-- Cells contributed by one operand at one index: its own values where
the index exists, otherwise a full row of missing values. -/
def padCells (w : Nat) : Option (List Int) → List (Option Int)
  | some cs => cs.map some
  | none => List.replicate w none

/-- Modelled from the spec: the external library's `pd.concat([d1, d2],
axis=1)` lines the operands up by index; an index present in only one
operand gets missing values in the columns coming from the other. -/
def concatAxis1 (d1 d2 : List (Nat × List Int)) : List (Nat × List (Option Int)) :=
  ((d1.map (fun p => p.1) ++ d2.map (fun p => p.1)).eraseDups).map
    (fun i => (i, padCells (dfWidth d1) (rowAt d1 i) ++ padCells (dfWidth d2) (rowAt d2 i)))

/-- The `df1` of the misaligned concat cell: index 0-2, columns `A`, `B`. -/
def concat_df1 : List (Nat × List Int) := [(0, [1, 4]), (1, [2, 5]), (2, [3, 6])]

/-- The `df2` of the misaligned concat cell: index 0 only, columns `B`, `C`. -/
def concat_df2 : List (Nat × List Int) := [(0, [7, 10])]

/-- One result displayed by a notebook cell operating on `df`. -/
inductive NbOut where
  | groups : List (String × List (Nat × Row)) → NbOut
  | series : List (String × ℚ) → NbOut
  | frame : List (Nat × Row) → NbOut
  | table : List (String × ℚ × ℚ) → NbOut
  | pairSeries : List ((String × String) × ℚ) → NbOut
  | maybeSeries : List (String × Option ℚ) → NbOut
deriving DecidableEq

/-- The library calls the notebook demonstrates on the dataframe `df`. -/
inductive NbOp where
  | opGroupby
  | opApplyGetMean
  | opApplyBestPlayer
  | opResetIndex
  | opMean
  | opApplyLevelMean
  | opPairMean
deriving DecidableEq

/-- Modelled from the spec: each demonstrated library call computes its
result from the dataframe and returns a new object; the session state (the
dataframe the calls are made on) is threaded explicitly and returned. -/
def runOp : NbOp → List (Nat × Row) → NbOut × List (Nat × Row)
  | .opGroupby, d => (NbOut.groups (groupby Row.country d), d)
  | .opApplyGetMean, d => (NbOut.series (applyGroups get_mean (groupby Row.country d)), d)
  | .opApplyBestPlayer, d => (NbOut.groups (applyGroups best_player (groupby Row.country d)), d)
  | .opResetIndex, d =>
      (NbOut.frame (resetIndexDrop (applyGroups best_player (groupby Row.country d))), d)
  | .opMean, d =>
      (NbOut.table (applyGroups (fun g => (get_mean g, colMean Row.last_score g))
        (groupby Row.country d)), d)
  | .opApplyLevelMean, d => (NbOut.maybeSeries (applyGroups level_mean (groupby Row.country d)), d)
  | .opPairMean, d => (NbOut.pairSeries (pairMeans d), d)

/-- Run a sequence of notebook operations, threading the dataframe. -/
def runNotebook : List NbOp → List (Nat × Row) → List NbOut × List (Nat × Row)
  | [], d => ([], d)
  | op :: ops, d =>
      ((runOp op d).1 :: (runNotebook ops (runOp op d).2).1, (runNotebook ops (runOp op d).2).2)

/-- The dataframe operations the notebook performs on `df`, in order. -/
def notebookOps : List NbOp :=
  [.opGroupby, .opApplyGetMean, .opApplyBestPlayer, .opResetIndex,
   .opMean, .opApplyLevelMean, .opPairMean]

theorem mem_colKeys {d : List (Int × Int)} {k : Int} :
    k ∈ colKeys d ↔ ∃ p ∈ d, p.1 = k := by
  simp [colKeys]

theorem mem_outKeys {rs : List (Int × Option Int × Option Int)} {k : Int} :
    k ∈ outKeys rs ↔ ∃ r ∈ rs, r.1 = k := by
  simp [outKeys]

theorem mem_outKeys_innerRows (d1 d2 : List (Int × Int)) (k : Int) :
    k ∈ outKeys (innerRows d1 d2) ↔ k ∈ colKeys d1 ∧ k ∈ colKeys d2 := by
  rw [mem_outKeys, mem_colKeys, mem_colKeys]
  constructor
  · rintro ⟨r, hr, rfl⟩
    rcases List.mem_flatMap.mp hr with ⟨p, hp, hmem⟩
    rcases List.mem_map.mp hmem with ⟨q, hq, rfl⟩
    rcases List.mem_filter.mp hq with ⟨hq2, hqk⟩
    exact ⟨⟨p, hp, rfl⟩, ⟨q, hq2, beq_iff_eq.mp hqk⟩⟩
  · rintro ⟨⟨p, hp, rfl⟩, ⟨q, hq, hqp⟩⟩
    refine ⟨(p.1, some p.2, some q.2), ?_, rfl⟩
    exact List.mem_flatMap.mpr
      ⟨p, hp, List.mem_map.mpr ⟨q, List.mem_filter.mpr ⟨hq, beq_iff_eq.mpr hqp⟩, rfl⟩⟩

theorem mem_outKeys_leftRows (d1 d2 : List (Int × Int)) (k : Int) :
    k ∈ outKeys (leftRows d1 d2) ↔ k ∈ colKeys d1 := by
  rw [mem_outKeys, mem_colKeys]
  constructor
  · rintro ⟨r, hr, rfl⟩
    rcases List.mem_flatMap.mp hr with ⟨p, hp, hmem⟩
    refine ⟨p, hp, ?_⟩
    cases hfil : d2.filter (fun q => q.1 == p.1) with
    | nil =>
        rw [hfil] at hmem
        simp only [List.mem_singleton] at hmem
        rw [hmem]
    | cons m ms =>
        rw [hfil] at hmem
        rcases List.mem_map.mp hmem with ⟨q, hq, rfl⟩
        rfl
  · rintro ⟨p, hp, rfl⟩
    cases hfil : d2.filter (fun q => q.1 == p.1) with
    | nil =>
        refine ⟨(p.1, some p.2, none), ?_, rfl⟩
        exact List.mem_flatMap.mpr ⟨p, hp, by rw [hfil]; exact List.mem_singleton.mpr rfl⟩
    | cons m ms =>
        refine ⟨(p.1, some p.2, some m.2), ?_, rfl⟩
        refine List.mem_flatMap.mpr ⟨p, hp, ?_⟩
        rw [hfil]
        exact List.mem_map.mpr ⟨m, List.mem_cons_self m ms, rfl⟩

theorem mem_outKeys_rightRows (d1 d2 : List (Int × Int)) (k : Int) :
    k ∈ outKeys (rightRows d1 d2) ↔ k ∈ colKeys d2 := by
  rw [mem_outKeys, mem_colKeys]
  constructor
  · rintro ⟨r, hr, rfl⟩
    rcases List.mem_flatMap.mp hr with ⟨q, hq, hmem⟩
    refine ⟨q, hq, ?_⟩
    cases hfil : d1.filter (fun p => p.1 == q.1) with
    | nil =>
        rw [hfil] at hmem
        simp only [List.mem_singleton] at hmem
        rw [hmem]
    | cons m ms =>
        rw [hfil] at hmem
        rcases List.mem_map.mp hmem with ⟨p, hp, rfl⟩
        rfl
  · rintro ⟨q, hq, rfl⟩
    cases hfil : d1.filter (fun p => p.1 == q.1) with
    | nil =>
        refine ⟨(q.1, none, some q.2), ?_, rfl⟩
        exact List.mem_flatMap.mpr ⟨q, hq, by rw [hfil]; exact List.mem_singleton.mpr rfl⟩
    | cons m ms =>
        refine ⟨(q.1, some m.2, some q.2), ?_, rfl⟩
        refine List.mem_flatMap.mpr ⟨q, hq, ?_⟩
        rw [hfil]
        exact List.mem_map.mpr ⟨m, List.mem_cons_self m ms, rfl⟩

theorem mem_outKeys_outerRows (d1 d2 : List (Int × Int)) (k : Int) :
    k ∈ outKeys (outerRows d1 d2) ↔ k ∈ colKeys d1 ∨ k ∈ colKeys d2 := by
  have hsplit : outKeys (outerRows d1 d2)
      = outKeys (leftRows d1 d2)
        ++ outKeys ((d2.filter (fun q => !(d1.any (fun p => p.1 == q.1)))).map
            (fun q => (q.1, none, some q.2))) := by
    simp [outerRows, outKeys]
  rw [hsplit, List.mem_append, mem_outKeys_leftRows]
  constructor
  · rintro (h | h)
    · exact Or.inl h
    · right
      rcases mem_outKeys.mp h with ⟨r, hr, rfl⟩
      rcases List.mem_map.mp hr with ⟨q, hq, rfl⟩
      exact mem_colKeys.mpr ⟨q, (List.mem_filter.mp hq).1, rfl⟩
  · intro h
    by_cases h1 : k ∈ colKeys d1
    · exact Or.inl h1
    · rcases h with h | h2
      · exact absurd h h1
      · right
        rcases mem_colKeys.mp h2 with ⟨q, hq, rfl⟩
        have hany : d1.any (fun p => p.1 == q.1) = false := by
          rw [List.any_eq_false]
          intro p hp hbeq
          exact h1 (mem_colKeys.mpr ⟨p, hp, beq_iff_eq.mp hbeq⟩)
        refine mem_outKeys.mpr ⟨(q.1, none, some q.2), ?_, rfl⟩
        refine List.mem_map.mpr ⟨q, List.mem_filter.mpr ⟨hq, ?_⟩, rfl⟩
        rw [hany]
        rfl

/-- C1: grouping the scoreboard dataframe by `country` yields exactly the
two pairs `("gr", rows 0-3)` and `("no", rows 4-7)`; every row of the
dataframe lies in exactly one group, and every row of a group has its
`country` column equal to that group's key. -/
theorem groupby_country_partitions :
    groupby Row.country df = [("gr", gr_rows), ("no", no_rows)]
    ∧ (df.all (fun p =>
        (groupby Row.country df).countP (fun kg => decide (p ∈ kg.2)) == 1)) = true
    ∧ ((groupby Row.country df).all (fun kg =>
        kg.2.all (fun p => p.2.country == kg.1))) = true := by
  refine ⟨by decide, by decide, by decide⟩

/-- C2: applying `get_mean` over `groupby('country')` of the scoreboard
dataframe returns a series keyed by country holding the arithmetic mean of
`best_score` in each group: 300 for `gr` (mean of 100, 250, 300, 550) and
187.5 for `no` (mean of 200, 100, 400, 50). -/
theorem apply_get_mean_country_means :
    applyGroups get_mean (groupby Row.country df) = [("gr", 300), ("no", 375/2)]
    ∧ get_mean gr_rows = (100 + 250 + 300 + 550) / 4
    ∧ get_mean no_rows = (200 + 100 + 400 + 50) / 4 := by
  have h : groupby Row.country df = [("gr", gr_rows), ("no", no_rows)] := by decide
  refine ⟨?_, ?_, ?_⟩
  · rw [h]
    simp [applyGroups, get_mean, gr_rows, no_rows,
      row0, row1, row2, row3, row4, row5, row6, row7]
    norm_num
  · simp [get_mean, gr_rows, row0, row1, row2, row3]
    norm_num
  · simp [get_mean, no_rows, row4, row5, row6, row7]
    norm_num

/-- C3: an inner merge keyed on column `A` keeps exactly the keys occurring
in both dataframes, an outer merge the union of keys, a left merge the keys
of the left dataframe, a right merge the keys of the right one; on the
example frames (`A = [1,2,3]` against `A = [4]`) the inner merge is empty
and the outer/left/right key columns are `[1,2,3,4]`, `[1,2,3]`, `[4]`. -/
theorem merge_join_modes :
    (∀ (d1 d2 : List (Int × Int)) (k : Int),
      k ∈ outKeys (merge MergeHow.inner d1 d2) ↔ k ∈ colKeys d1 ∧ k ∈ colKeys d2)
    ∧ (∀ (d1 d2 : List (Int × Int)) (k : Int),
      k ∈ outKeys (merge MergeHow.outer d1 d2) ↔ k ∈ colKeys d1 ∨ k ∈ colKeys d2)
    ∧ (∀ (d1 d2 : List (Int × Int)) (k : Int),
      k ∈ outKeys (merge MergeHow.left d1 d2) ↔ k ∈ colKeys d1)
    ∧ (∀ (d1 d2 : List (Int × Int)) (k : Int),
      k ∈ outKeys (merge MergeHow.right d1 d2) ↔ k ∈ colKeys d2)
    ∧ merge MergeHow.inner merge_df1 merge_df2 = []
    ∧ outKeys (merge MergeHow.outer merge_df1 merge_df2) = [1, 2, 3, 4]
    ∧ outKeys (merge MergeHow.left merge_df1 merge_df2) = [1, 2, 3]
    ∧ outKeys (merge MergeHow.right merge_df1 merge_df2) = [4] := by
  refine ⟨fun d1 d2 k => mem_outKeys_innerRows d1 d2 k,
    fun d1 d2 k => mem_outKeys_outerRows d1 d2 k,
    fun d1 d2 k => mem_outKeys_leftRows d1 d2 k,
    fun d1 d2 k => mem_outKeys_rightRows d1 d2 k,
    by decide, by decide, by decide, by decide⟩

/-- C4: concatenating `df1` (index 0-2, columns A, B) with `df2` (index 0
only, columns B, C) along axis 1 yields a 3-row result whose columns coming
from `df2` hold missing values at index positions 1 and 2, all values of
both inputs otherwise preserved. -/
theorem concat_axis1_misaligned :
    concatAxis1 concat_df1 concat_df2 =
      [(0, [some 1, some 4, some 7, some 10]),
       (1, [some 2, some 5, none, none]),
       (2, [some 3, some 6, none, none])]
    ∧ (concatAxis1 concat_df1 concat_df2).length = 3 := by
  refine ⟨by decide, by decide⟩

/-- C5 counterexample: the notebook does author functions of its own - the
list of its `def` statements is not empty (it holds `get_mean`,
`best_player` and `level_mean`), contradicting the claim that no function
is defined by the repository. -/
theorem no_user_defs_counterexample : ¬ (userAuthoredDefs = []) := by decide

/-- C5 amended: the notebook authors exactly the three helper functions
`get_mean`, `best_player` and `level_mean`, and `get_mean` is interposed
into a transformation (it is the function applied per group in
`df.groupby('country').apply(get_mean)`); it defines no class, protocol or
state machine, and its other transformations are single library calls. -/
theorem user_authored_defs_amended :
    userAuthoredDefs = ["get_mean", "best_player", "level_mean"]
    ∧ applyGroups get_mean (groupby Row.country df)
        = [("gr", get_mean gr_rows), ("no", get_mean no_rows)] := by
  have h : groupby Row.country df = [("gr", gr_rows), ("no", no_rows)] := by decide
  exact ⟨rfl, by rw [h]; rfl⟩

/-- C6: the stub `level_mean` returns `None` on every input dataframe (its
body is only `pass`), so applying it over `groupby('country')` produces no
aggregated values - only a `None` per group key. -/
theorem level_mean_stub_returns_none :
    (∀ d, level_mean d = none)
    ∧ applyGroups level_mean (groupby Row.country df) = [("gr", none), ("no", none)] := by
  refine ⟨fun d => rfl, by decide⟩

/-- C7: the inline data is exactly 8 scoreboard records (with the five
fields of `Row`) and exactly 2 tweet records (with the four fields of
`Tweet`, `hashtags` a list of strings). -/
theorem inline_data_inventory :
    scoreboard.length = 8
    ∧ raw_tweets.length = 2
    ∧ raw_tweets.map Tweet.hashtags
        = [["worldrocked", "jawdrop", "ml"], ["datascience", "ml"]] := by
  refine ⟨rfl, rfl, by decide⟩

/-- C8: no demonstrated operation mutates the dataframe: threading the
session state through any sequence of the notebook's calls returns the
dataframe unchanged; in particular after the notebook's own sequence the
dataframe still equals the one built from the 8 scoreboard records. -/
theorem notebook_ops_do_not_mutate :
    (∀ (ops : List NbOp) (d : List (Nat × Row)), (runNotebook ops d).2 = d)
    ∧ (runNotebook notebookOps df).2 = scoreboard.enum := by
  have hrun : ∀ (ops : List NbOp) (d : List (Nat × Row)), (runNotebook ops d).2 = d := by
    intro ops
    induction ops with
    | nil => intro d; rfl
    | cons op ops ih =>
        intro d
        have hop : (runOp op d).2 = d := by cases op <;> rfl
        simp [runNotebook, hop, ih]
  exact ⟨hrun, by rw [hrun]; rfl⟩

/-- C9: the single multi-key grouping (series
`df.groupby(['country','level']).mean().best_score`) computes the same
values as the nested two-stage grouping: for every country/level pair
occurring in the data the two lookups agree, with values 425 for
(gr, expert), 175 for (gr, n00b), 250 for (no, expert), 125 for (no, n00b). -/
theorem multi_groupby_matches_nested :
    List.lookup ("gr", "expert") (pairMeans df) = some 425
    ∧ List.lookup ("gr", "n00b") (pairMeans df) = some 175
    ∧ List.lookup ("no", "expert") (pairMeans df) = some 250
    ∧ List.lookup ("no", "n00b") (pairMeans df) = some 125
    ∧ ((df.map (fun p => (p.2.country, p.2.level))).all
        (fun c => List.lookup c (pairMeans df)
          == ((List.lookup c.1 (nestedMeans df)).bind
            (fun s => List.lookup c.2 s)))) = true := by
  have hgp : groupbyPair df =
      [(("gr", "expert"), [(2, row2), (3, row3)]),
       (("gr", "n00b"), [(0, row0), (1, row1)]),
       (("no", "expert"), [(5, row5), (6, row6)]),
       (("no", "n00b"), [(4, row4), (7, row7)])] := by decide
  have hp : pairMeans df =
      [(("gr", "expert"), 425), (("gr", "n00b"), 175),
       (("no", "expert"), 250), (("no", "n00b"), 125)] := by
    rw [pairMeans, hgp]
    simp [get_mean, row0, row1, row2, row3, row4, row5, row6, row7]
    norm_num
  have hc : groupby Row.country df = [("gr", gr_rows), ("no", no_rows)] := by decide
  have hgr : groupby Row.level gr_rows = [("expert", [(2, row2), (3, row3)]),
      ("n00b", [(0, row0), (1, row1)])] := by decide
  have hno : groupby Row.level no_rows = [("expert", [(5, row5), (6, row6)]),
      ("n00b", [(4, row4), (7, row7)])] := by decide
  have hn : nestedMeans df =
      [("gr", [("expert", 425), ("n00b", 175)]),
       ("no", [("expert", 250), ("n00b", 125)])] := by
    rw [nestedMeans, hc]
    simp [applyGroups, level_means, hgr, hno, get_mean,
      row0, row1, row2, row3, row4, row5, row6, row7]
    norm_num
  rw [hp, hn]
  refine ⟨by decide, by decide, by decide, by decide, by decide⟩

/-- C10: the exercise stub `best_player` is the identity on dataframes: it
returns its input unchanged, and on the scoreboard dataframe it returns all
8 rows rather than selecting the row with the highest `best_score`. -/
theorem best_player_identity :
    (∀ d, best_player d = d)
    ∧ best_player df = df
    ∧ (best_player df).length = 8
    ∧ best_player df ≠ [(3, row3)] := by
  refine ⟨fun d => rfl, rfl, rfl, by decide⟩
